import Mathlib

/-!
Shallow embedding of the autonomous agent orchestration core of
src/agents/autonomous/handler.ts: the OpenRouter SSE stream adapter
(streamOpenRouter), the native retry wrapper (generateContentStreamWithRetry),
and the bounded agent loop (runAutonomousAgent).

External collaborators (the native model SDK, the research service, the image
service, the canvas sub-agent, the database service, URL parsing and
getUserFriendlyError from errorUtils, which is not part of the provided
sources) are modelled as oracle fields of an Env record: each hop's external
call outcome is an input of the embedding.  Machinery that only shapes the
request payloads handed to those oracles (history assembly, file inlining,
system-instruction text) is not modelled, since the oracles absorb it.
-/

namespace Bubble

/-- Substring membership at some position, i.e. JS String.prototype.includes. -/
def containsAux (pat : List Char) : List Char → Bool
  | [] => pat.isEmpty
  | c :: t => pat.isPrefixOf (c :: t) || containsAux pat t

/-- JS s.includes(pat). -/
def containsSub (s pat : String) : Bool :=
  containsAux pat.data s.data

/-- ASCII lower-casing, enough for the /i regex flags on ASCII tag literals. -/
def charLower (c : Char) : Char :=
  if 'A' ≤ c && c ≤ 'Z' then Char.ofNat (c.toNat + 32) else c

/-- Case-insensitive (ASCII) prefix test; pat is given already lower-cased. -/
def ciPrefix : List Char → List Char → Bool
  | [], _ => true
  | _ :: _, [] => false
  | p :: ps, c :: cs => (charLower c == p) && ciPrefix ps cs

/-- The character class of the JS regex \s (the ASCII part). -/
def isJsWs (c : Char) : Bool :=
  ([' ', '\t', '\n', '\r', '\x0b', '\x0c'] : List Char).contains c

/-- JS String.prototype.trim: strip leading and trailing whitespace. -/
def jsTrim (s : String) : String :=
  String.mk (((s.data.dropWhile isJsWs).reverse.dropWhile isJsWs).reverse)

/-- Splitting on the newline character, as JS str.split("\n"): always returns at
least one (possibly empty) piece; a trailing newline yields a final empty piece. -/
def splitNl : List Char → List (List Char)
  | [] => [[]]
  | c :: t =>
    if c == '\n' then [] :: splitNl t
    else
      match splitNl t with
      | [] => [[c]]
      | l :: ls => (c :: l) :: ls

/-! ### A small JSON value type and parser, embedding JSON.parse as used by
streamOpenRouter on each `data: ` line.  Numbers keep their raw token (their
numeric value is never needed; only JS truthiness of a parsed field is). -/

inductive JVal where
  | jnull
  | jbool (b : Bool)
  | jnum (raw : String)
  | jstr (s : String)
  | jarr (xs : List JVal)
  | jobj (fields : List (String × JVal))
deriving Repr

def skipWs : List Char → List Char
  | [] => []
  | c :: t => if ([' ', '\t', '\n', '\r'] : List Char).contains c then skipWs t else c :: t

/-- Value of one hex digit, via code points (0-9, a-f, A-F). -/
def hexVal (c : Char) : Option Nat :=
  let n := c.toNat
  if 48 ≤ n && n ≤ 57 then some (n - 48)
  else if 97 ≤ n && n ≤ 102 then some (n - 87)
  else if 65 ≤ n && n ≤ 70 then some (n - 55)
  else none

/-- Body of a JSON string literal after the opening quote: returns the decoded
characters and the remaining input after the closing quote. -/
def jstrBody : Nat → List Char → Option (List Char × List Char)
  | 0, _ => none
  | _, [] => none
  | fuel + 1, c :: t =>
    if c == '"' then some ([], t)
    else if c == '\\' then
      match t with
      | [] => none
      | e :: t2 =>
        if e == 'u' then
          match t2 with
          | a :: b :: c3 :: d :: t3 =>
            match hexVal a, hexVal b, hexVal c3, hexVal d with
            | some ha, some hb, some hc, some hd =>
              (jstrBody fuel t3).map fun r =>
                (Char.ofNat (((ha * 16 + hb) * 16 + hc) * 16 + hd) :: r.1, r.2)
            | _, _, _, _ => none
          | _ => none
        else
          let dec : Option Char :=
            if e == '"' then some '"'
            else if e == '\\' then some '\\'
            else if e == '/' then some '/'
            else if e == 'b' then some '\x08'
            else if e == 'f' then some '\x0c'
            else if e == 'n' then some '\n'
            else if e == 'r' then some '\r'
            else if e == 't' then some '\t'
            else none
          match dec with
          | none => none
          | some d => (jstrBody fuel t2).map fun r => (d :: r.1, r.2)
    else (jstrBody fuel t).map fun r => (c :: r.1, r.2)

def isDigitCh (c : Char) : Bool := 48 ≤ c.toNat && c.toNat ≤ 57

def spanDigits : List Char → List Char × List Char
  | [] => ([], [])
  | c :: t =>
    if isDigitCh c then
      let r := spanDigits t
      (c :: r.1, r.2)
    else ([], c :: t)

/-- A JSON number token (sign, integer part, optional fraction and exponent). -/
def jnumTok (s : List Char) : Option (List Char × List Char) :=
  let (sgn, s1) := match s with
    | '-' :: t => (['-'], t)
    | _ => (([] : List Char), s)
  let (intp, s2) := spanDigits s1
  if intp.isEmpty then none
  else
    let (frac, s3) := match s2 with
      | '.' :: t =>
        let (ds, r) := spanDigits t
        if ds.isEmpty then (([] : List Char), s2) else ('.' :: ds, r)
      | _ => ([], s2)
    let (expp, s4) := match s3 with
      | e :: t =>
        if e == 'e' || e == 'E' then
          let (es, t2) := match t with
            | '+' :: u => (['+'], u)
            | '-' :: u => (['-'], u)
            | _ => (([] : List Char), t)
          let (ds, r) := spanDigits t2
          if ds.isEmpty then (([] : List Char), s3) else (e :: (es ++ ds), r)
        else ([], s3)
      | [] => ([], s3)
    some (sgn ++ intp ++ frac ++ expp, s4)

mutual

/-- Recursive-descent JSON value parser (fuel-indexed). -/
def jval : Nat → List Char → Option (JVal × List Char)
  | 0, _ => none
  | fuel + 1, s =>
    match skipWs s with
    | 'n' :: 'u' :: 'l' :: 'l' :: r => some (.jnull, r)
    | 't' :: 'r' :: 'u' :: 'e' :: r => some (.jbool true, r)
    | 'f' :: 'a' :: 'l' :: 's' :: 'e' :: r => some (.jbool false, r)
    | '"' :: r => (jstrBody (fuel + 1) r).map fun p => (.jstr (String.mk p.1), p.2)
    | '[' :: r =>
      (match skipWs r with
       | ']' :: r2 => some (.jarr [], r2)
       | _ => (jarrItems fuel r).map fun p => (.jarr p.1, p.2))
    | '\x7b' :: r =>
      (match skipWs r with
       | '\x7d' :: r2 => some (.jobj [], r2)
       | _ => (jobjItems fuel r).map fun p => (.jobj p.1, p.2))
    | s2 => (jnumTok s2).map fun p => (.jnum (String.mk p.1), p.2)

/-- Comma-separated array items up to the closing bracket. -/
def jarrItems : Nat → List Char → Option (List JVal × List Char)
  | 0, _ => none
  | fuel + 1, s =>
    match jval fuel s with
    | none => none
    | some (v, r) =>
      match skipWs r with
      | ',' :: r2 => (jarrItems fuel r2).map fun p => (v :: p.1, p.2)
      | ']' :: r2 => some ([v], r2)
      | _ => none

/-- Comma-separated object members up to the closing brace. -/
def jobjItems : Nat → List Char → Option (List (String × JVal) × List Char)
  | 0, _ => none
  | fuel + 1, s =>
    match skipWs s with
    | '"' :: r =>
      match jstrBody (fuel + 1) r with
      | none => none
      | some (k, r2) =>
        match skipWs r2 with
        | ':' :: r3 =>
          (match jval fuel r3 with
           | none => none
           | some (v, r4) =>
             match skipWs r4 with
             | ',' :: r5 => (jobjItems fuel r5).map fun p => ((String.mk k, v) :: p.1, p.2)
             | '\x7d' :: r5 => some ([(String.mk k, v)], r5)
             | _ => none)
        | _ => none
    | _ => none

end

/-- JSON.parse: a full parse of the whole text (trailing garbage rejects). -/
def jsonParse (s : String) : Option JVal :=
  match jval (s.length + 2) s.data with
  | some (v, rest) => if (skipWs rest).isEmpty then some v else none
  | none => none

/-- Object member access; JSON.parse keeps the last of duplicate keys, so the
lookup walks the reversed member list. -/
def jGet (v : JVal) (k : String) : Option JVal :=
  match v with
  | .jobj fields =>
    match fields.reverse.find? (fun f => f.1 == k) with
    | some f => some f.2
    | none => none
  | _ => none

/-- JS truthiness of a parsed JSON value (for a number, the mantissa decides;
`0`, `-0`, `0.0` are falsy). -/
def jsTruthy (v : JVal) : Bool :=
  match v with
  | .jnull => false
  | .jbool b => b
  | .jstr s => !(s == "")
  | .jarr _ => true
  | .jobj _ => true
  | .jnum raw => (raw.data.takeWhile (fun c => !(c == 'e') && !(c == 'E'))).any
      (fun c => isDigitCh c && !(c == '0'))

/-- json.choices[0]?.delta?.content of streamOpenRouter: every access failure
(absent field, non-array, empty array) is swallowed by the catch around the
line parse, so the whole chain is an Option. -/
def choicesDeltaContent (v : JVal) : Option JVal :=
  match jGet v "choices" with
  | some (.jarr (c0 :: _)) =>
    match jGet c0 "delta" with
    | some d => jGet d "content"
    | none => none
  | _ => none

/-- One complete line of the aggregator SSE stream: a delta is yielded iff the
line starts with "data: ", is not the [DONE] sentinel, parses as JSON and has
a truthy choices[0]?.delta?.content; all other lines (including malformed
JSON) are skipped silently. -/
def lineDelta (line : List Char) : Option JVal :=
  if "data: ".data.isPrefixOf line && !(line == "data: [DONE]".data) then
    match jsonParse (String.mk (line.drop 6)) with
    | some v =>
      match choicesDeltaContent v with
      | some c => if jsTruthy c then some c else none
      | none => none
    | none => none
  else none

/-- The read/split/buffer loop of streamOpenRouter (handler.ts lines 70-90):
each decoded network chunk is appended to the carry buffer, the buffer is split
on newlines, all complete lines are processed and the final fragment becomes
the new carry; a leftover carry when the stream ends is dropped, exactly as in
the source. -/
def srLoop : List String → List Char → List JVal
  | [], _ => []
  | c :: rest, buffer =>
    let pieces := splitNl (buffer ++ c.data)
    (pieces.dropLast.filterMap lineDelta) ++ srLoop rest (pieces.getLastD [])

/-- The sequence of deltas streamOpenRouter yields for a successful response
whose body arrives as the given chunks. -/
def streamOpenRouterDeltas (chunks : List String) : List JVal :=
  srLoop chunks []

/-! ### generateContentStreamWithRetry (handler.ts lines 98-129).
The native SDK call of each attempt is an oracle `attemptRes : Nat → Except
JsError σ`.  The trace records the result, the backoff delays awaited and the
onRetry notices emitted, in order. -/

/-- A thrown JS error as the handler inspects it: an optional numeric status
plus a message. -/
structure JsError where
  status : Option Nat
  message : String
deriving DecidableEq, Repr

/-- error.status === 429 || error.message.includes('429') ||
error.message.includes('quota') (the truthiness guard on error.message is
equivalent: includes on an empty message is false). -/
def isQuotaError (e : JsError) : Bool :=
  e.status == some 429 || containsSub e.message "429" || containsSub e.message "quota"

/-- The backoff formula of line 119: 2^attempt * 2000 + 1000. -/
def retryDelay (attempt : Nat) : Nat := 2 ^ attempt * 2000 + 1000

/-- The onRetry notice of line 121, with Math.round(delay/1000). -/
def retryNotice (delay : Nat) : String :=
  "(Rate limit hit. Retrying in " ++ toString ((delay + 500) / 1000) ++ "s...)"

structure RetryTrace (σ : Type) where
  result : Except JsError σ
  delays : List Nat
  notices : List String
deriving Repr

/-- The error thrown by the (unreachable) line 128 after the for loop. -/
def maxRetriesErr : JsError := ⟨none, "Max retries exceeded"⟩

/-- The for loop of lines 110-127: attempt ranges over 0..retries, so the loop
body runs at most retries+1 times (the fuel); a quota error with attempts left
waits and retries, any other error (or a quota error on the final attempt)
rethrows; falling off the loop would throw "Max retries exceeded". -/
def retryGo {σ : Type} (attemptRes : Nat → Except JsError σ) (retries : Nat) :
    Nat → Nat → RetryTrace σ
  | _, 0 => ⟨.error maxRetriesErr, [], []⟩
  | attempt, fuel + 1 =>
    match attemptRes attempt with
    | .ok s => ⟨.ok s, [], []⟩
    | .error e =>
      if isQuotaError e && decide (attempt < retries) then
        let d := retryDelay attempt
        let t := retryGo attemptRes retries (attempt + 1) fuel
        ⟨t.result, d :: t.delays, retryNotice d :: t.notices⟩
      else ⟨.error e, [], []⟩

/-- generateContentStreamWithRetry, with the per-attempt SDK outcome as an
oracle.  (The params.model defaulting of lines 104-108 only rewrites the
request payload handed to the SDK and is absorbed by the oracle.) -/
def generateContentStreamWithRetry {σ : Type} (attemptRes : Nat → Except JsError σ)
    (retries : Nat) : RetryTrace σ :=
  retryGo attemptRes retries 0 (retries + 1)

/-! ### Directive tag scanning (handler.ts lines 434-448).
Each tag regex has the shape /<TAG>(.*?)<\/TAG>/: the leftmost start position
wins and the lazy capture is the shortest span reaching the closing tag; `.`
does not cross a newline, so a start position whose closing tag is only
reachable across a newline fails and scanning resumes at the next position. -/

/-- Lazy capture up to the first occurrence of the closing literal, failing on
a newline or end of input. -/
def captureTo (closeT : List Char) : List Char → Option (List Char)
  | [] => none
  | c :: rest =>
    if closeT.isPrefixOf (c :: rest) then some []
    else if c == '\n' then none
    else (captureTo closeT rest).map (c :: ·)

/-- First match of /OPEN(.*?)CLOSE/ over the input, returning the capture. -/
def scanTag (openT closeT : List Char) : List Char → Option (List Char)
  | [] => none
  | c :: rest =>
    if openT.isPrefixOf (c :: rest) then
      match captureTo closeT ((c :: rest).drop openT.length) with
      | some cap => some cap
      | none => scanTag openT closeT rest
    else scanTag openT closeT rest

/-- generatedThisLoop.match of /<OPEN>(.*?)<\/CLOSE>/, as a String function. -/
def tagCapture (openT closeT g : String) : Option String :=
  (scanTag openT.data closeT.data g.data).map String.mk

/-- Case-insensitive lazy capture up to the closing literal (given lower-cased);
captured characters keep their original case. -/
def captureToCI (closeT : List Char) : List Char → Option (List Char)
  | [] => none
  | c :: rest =>
    if ciPrefix closeT (c :: rest) then some []
    else if c == '\n' then none
    else (captureToCI closeT rest).map (c :: ·)

def wsRunLen : List Char → Nat
  | [] => 0
  | c :: rest => if isJsWs c then wsRunLen rest + 1 else 0

/-- The second alternative of the deep match, /<SEARCH>deep\s+(.*?)<\/SEARCH>/i.
The greedy \s+ consumes the maximal whitespace run: the closing tag starts with
a non-whitespace character, so no backtracked split of the run can succeed
unless the maximal one does, and then the lazy capture prefers the maximal run
anyway. -/
def scanDeepSearch : List Char → Option (List Char)
  | [] => none
  | c :: rest =>
    if ciPrefix "<search>deep".data (c :: rest) then
      let after := (c :: rest).drop 12
      let n := wsRunLen after
      if n == 0 then scanDeepSearch rest
      else
        match captureToCI "</search>".data (after.drop n) with
        | some cap => some cap
        | none => scanDeepSearch rest
    else scanDeepSearch rest

/-- deepMatch (line 435): <DEEP> tag, or a <SEARCH> payload led by "deep". -/
def deepDir (g : String) : Option String :=
  match tagCapture "<DEEP>" "</DEEP>" g with
  | some c => some c
  | none => (scanDeepSearch g.data).map String.mk

def searchDir (g : String) : Option String := tagCapture "<SEARCH>" "</SEARCH>" g

/-- thinkMatch (line 436): a captured payload, or an empty capture when only
the bare <THINK> regex matches (JS leaves match[1] undefined, which is falsy
exactly like an empty capture). -/
def thinkDir (g : String) : Option String :=
  match tagCapture "<THINK>" "</THINK>" g with
  | some c => some c
  | none => if containsSub g "<THINK>" then some "" else none

def imageDir (g : String) : Option String := tagCapture "<IMAGE>" "</IMAGE>" g

def projectDir (g : String) : Option String := tagCapture "<PROJECT>" "</PROJECT>" g

def canvasDir (g : String) : Option String := tagCapture "<CANVAS>" "</CANVAS>" g

def studyDir (g : String) : Option String := tagCapture "<STUDY>" "</STUDY>" g

/-- The action enumeration of the semantic router. -/
inductive RouterAction where
  | SIMPLE | SEARCH | DEEP_SEARCH | THINK | IMAGE | PROJECT | CANVAS | STUDY
deriving DecidableEq, Repr

/-- The directive dispatch of lines 442-448: the if-chain checked in the fixed
order deep, search, think, image, project, canvas, study; the result is the
next (action, prompt, routing.parameters.prompt), or none when no tag matched
(the terminal path).  A payloadless or empty <THINK> capture falls back to the
turn's original prompt; an <IMAGE> match also rewrites routing.parameters. -/
def nextDirective (g turnPrompt : String) (params : Option String) :
    Option (RouterAction × String × Option String) :=
  match deepDir g with
  | some c => some (.DEEP_SEARCH, c, params)
  | none =>
  match searchDir g with
  | some c => some (.SEARCH, c, params)
  | none =>
  match thinkDir g with
  | some c => some (.THINK, if c == "" then turnPrompt else jsTrim c, params)
  | none =>
  match imageDir g with
  | some c => some (.IMAGE, c, some c)
  | none =>
  match projectDir g with
  | some c => some (.PROJECT, c, params)
  | none =>
  match canvasDir g with
  | some c => some (.CANVAS, c, params)
  | none =>
  match studyDir g with
  | some c => some (.STUDY, c, params)
  | none => none

/-! ### runAutonomousAgent (handler.ts lines 131-467). -/

/-- A grounding citation chunk (web.uri / web.title). -/
structure GChunk where
  uri : String
  title : String
deriving DecidableEq, Repr

/-- One chunk of a model stream: its text delta and any grounding chunks the
candidate metadata exposes. -/
structure StreamChunk where
  text : String
  grounding : List GChunk
deriving DecidableEq, Repr

structure SearchResult where
  answer : String
  sources : List String
deriving DecidableEq, Repr

/-- The oracle record for every external collaborator the turn touches.
Streaming calls are indexed by the hop number; a .error outcome models the
call (or the first iteration of its stream) throwing. -/
structure Env where
  route : Except JsError RouterAction
  routeParams : Option String
  memory : Except JsError Unit
  research : Nat → String → Except JsError SearchResult
  nativeAttempts : Nat → Nat → Except JsError (List StreamChunk)
  orStream : Nat → Except JsError (List StreamChunk)
  imageGen : Nat → String → Except JsError String
  canvasText : Except JsError String
  projectGen : Nat → Except JsError String
  incThinkingRes : Except JsError Unit
  urlHostname : String → Option String
  getUserFriendlyError : JsError → String

/-- The fields of AgentInput the orchestration core reads.  project and chat
are optional because the code dereferences project.id / chat.id without a
guard; a missing one throws a TypeError at every return site. -/
structure AgentInput where
  prompt : String
  model : String
  project : Option String
  chat : Option String
  openRouterKey : Option String

structure Message where
  projectId : String
  chatId : String
  sender : String
  text : String
  imageBase64 : Option String
  grounding : List GChunk
deriving DecidableEq, Repr

/-- Observable side effects of a turn, in order: sink emissions
(onStreamChunk), the thinking-counter increment, and retry backoff waits. -/
inductive Effect where
  | emit (s : String)
  | incThinking
  | sleep (ms : Nat)
deriving DecidableEq, Repr

/-- The mutable loop state: currentAction, currentPrompt, finalResponseText,
metadataPayload.groundingMetadata, fallbackSearchContext and
routing.parameters.prompt. -/
structure LoopSt where
  action : RouterAction
  prompt : String
  finalText : String
  grounding : List GChunk
  fallbackCtx : String
  params : Option String
deriving DecidableEq, Repr

/-- Outcome of one loop iteration: a terminal return (text, image payload,
grounding), a continue with updated state, or a thrown error. -/
inductive HopRes where
  | ret (text : String) (image : Option String) (grounding : List GChunk)
  | cont (s : LoopSt)
  | err (e : JsError)
deriving Repr

/-- Per-turn constants: the resolved model, the isNative flag (computed once
at line 140, before the missing-OR-key model rewrite, and never recomputed)
and the original turn prompt the THINK fallback reuses. -/
structure TurnCtx where
  model : String
  isNative : Bool
  turnPrompt : String

/-- isGoogleModel (lines 21-24): empty defaults to native. -/
def isGoogleModel (model : String) : Bool :=
  if model == "" then true
  else "gemini".data.isPrefixOf model.data || "veo".data.isPrefixOf model.data
    || containsSub model "google"

/-- Lines 135-137: an empty or blank model falls back to the default. -/
def resolveModel (m : String) : String :=
  if m == "" || jsTrim m == "" then "gemini-2.5-flash" else m

/-- The per-turn context runAutonomousAgent sets up in lines 135-147: note the
missing-OpenRouter-key rewrite changes only the model string, not isNative. -/
def turnCtx (inp : AgentInput) : TurnCtx :=
  let m1 := resolveModel inp.model
  let isNat := isGoogleModel m1
  let m2 := if !isNat && (inp.openRouterKey == none) then "gemini-2.5-flash" else m1
  ⟨m2, isNat, inp.prompt⟩

/-- Stream consumption of the THINK/STUDY/SIMPLE branches: each chunk with
truthy text extends the response text. -/
def processText : List StreamChunk → String
  | [] => ""
  | c :: r => (if c.text == "" then "" else c.text) ++ processText r

/-- Grounding chunks gathered inside the same truthy-text guard (SIMPLE branch,
lines 424-430). -/
def processGrounding : List StreamChunk → List GChunk
  | [] => []
  | c :: r => (if c.text == "" then [] else c.grounding) ++ processGrounding r

/-- The onStreamChunk emissions of the stream consumption. -/
def processEmits : List StreamChunk → List Effect
  | [] => []
  | c :: r => (if c.text == "" then [] else [.emit c.text]) ++ processEmits r

/-- The effects of a retried native call: each backoff first emits the
onRetry notice to the sink, then waits. -/
def retryEffects {σ : Type} (t : RetryTrace σ) : List Effect :=
  t.delays.flatMap fun d => [.emit (retryNotice d), .sleep d]

def searchNotice : String := "\nSearching sources... 🌐\n"
def thinkNotice : String := "\nThinking deeply... 🧠\n"
def projectNotice : String := "\nBuilding project structure... 🏗️\n"
def studyNotice : String := "\nCreating study plan... 🎓\n"

/-- Minimal JSON.stringify of a string value, for the image start marker. -/
def jsonEscapeChar (c : Char) : List Char :=
  if c == '"' then ['\\', '"']
  else if c == '\\' then ['\\', '\\']
  else if c == '\n' then ['\\', 'n']
  else if c == '\r' then ['\\', 'r']
  else if c == '\t' then ['\\', 't']
  else [c]

def jsonStringLit (s : String) : String :=
  "\"" ++ String.mk (s.data.flatMap jsonEscapeChar) ++ "\""

/-- JSON.stringify of the image_generation_start marker (line 277). -/
def imageStartMarker (finalText : String) : String :=
  "\x7b\"type\":\"image_generation_start\",\"text\":" ++ jsonStringLit finalText ++ "\x7d"

/-- The synthesis prompt the SEARCH branch builds (line 232). -/
def synthesisPrompt (query ctxAnswer : String) : String :=
  "USER QUERY: " ++ query ++ "\n\nSEARCH CONTEXT:\n" ++ ctxAnswer ++
  "\n\nINSTRUCTIONS: Synthesize a comprehensive answer to the user\x27s query based ONLY on the provided search context. Cite sources using [1], [2] format where appropriate."

/-- Citation metadata for one source URL (lines 222-226): hostname of the URL
with a leading www. dropped (the URL parse is an oracle), or "Source" when the
parse throws. -/
def sourceChunk (env : Env) (url : String) : GChunk :=
  ⟨url, (env.urlHostname url).getD "Source"⟩

/-- The SEARCH / DEEP_SEARCH branch (lines 211-238): run the research
collaborator, replace the grounding payload when sources came back, cache the
answer as fallback context and continue as SIMPLE with the synthesis prompt.
(The progress-notice callback messages of the research service are internal to
the collaborator and not modelled.) -/
def searchHop (env : Env) (hop : Nat) (st : LoopSt) : HopRes × List Effect :=
  match env.research hop st.prompt with
  | .error e => (.err e, [.emit searchNotice])
  | .ok r =>
    let grounding2 := if r.sources.isEmpty then st.grounding
      else r.sources.map (sourceChunk env)
    (.cont { st with
        action := .SIMPLE
        prompt := synthesisPrompt st.prompt r.answer
        grounding := grounding2
        fallbackCtx := r.answer },
     [.emit searchNotice])

/-- The THINK branch (lines 240-274): a model that is not a native gemini-2.5
generation downgrades to SIMPLE silently; otherwise the usage counter is
incremented and a thinking-budget stream is consumed to a terminal return. -/
def thinkHop (env : Env) (ctx : TurnCtx) (hop : Nat) (st : LoopSt) :
    HopRes × List Effect :=
  if !(isGoogleModel ctx.model && containsSub ctx.model "gemini-2.5") then
    (.cont { st with action := .SIMPLE }, [])
  else
    match env.incThinkingRes with
    | .error e => (.err e, [.emit thinkNotice])
    | .ok _ =>
      let t := generateContentStreamWithRetry (env.nativeAttempts hop) 3
      let effs := [.emit thinkNotice, .incThinking] ++ retryEffects t
      match t.result with
      | .error e => (.err e, effs)
      | .ok chunks =>
        (.ret (st.finalText ++ processText chunks) none st.grounding,
         effs ++ processEmits chunks)

/-- The IMAGE branch (lines 276-297): terminal either way; a generation
failure appends a note to the text instead of failing the turn. -/
def imageHop (env : Env) (hop : Nat) (st : LoopSt) : HopRes × List Effect :=
  let imagePrompt := match st.params with
    | some p => if p == "" then st.prompt else p
    | none => st.prompt
  let marker := imageStartMarker st.finalText
  match env.imageGen hop imagePrompt with
  | .ok b64 => (.ret st.finalText (some b64) st.grounding, [.emit marker])
  | .error e =>
    let errorMsg := "\n\n(Image generation failed: " ++ e.message ++ ")"
    (.ret (st.finalText ++ errorMsg) none st.grounding,
     [.emit marker, .emit errorMsg])

/-- The CANVAS branch (lines 299-313): delegate to the sub-agent; its first
message text replaces the accumulated text. -/
def canvasHop (env : Env) (st : LoopSt) : HopRes × List Effect :=
  match env.canvasText with
  | .error e => (.err e, [])
  | .ok t => (.ret t none st.grounding, [])

/-- The PROJECT branch (lines 315-330): non-native models downgrade to SIMPLE;
otherwise one structured call produces a terminal summary. -/
def projectHop (env : Env) (ctx : TurnCtx) (hop : Nat) (st : LoopSt) :
    HopRes × List Effect :=
  if !isGoogleModel ctx.model then (.cont { st with action := .SIMPLE }, [])
  else
    match env.projectGen hop with
    | .error e => (.err e, [.emit projectNotice])
    | .ok txt =>
      let projectMsg := "\nI\x27ve designed the project structure based on your request.\n\n"
        ++ txt ++ "\n\n(Switch to Co-Creator mode to fully hydrate and edit these files.)"
      (.ret (st.finalText ++ projectMsg) none st.grounding,
       [.emit projectNotice, .emit projectMsg])

/-- The STUDY branch (lines 332-349): non-native models downgrade to SIMPLE;
otherwise a retried stream is consumed to a terminal return. -/
def studyHop (env : Env) (ctx : TurnCtx) (hop : Nat) (st : LoopSt) :
    HopRes × List Effect :=
  if !isGoogleModel ctx.model then (.cont { st with action := .SIMPLE }, [])
  else
    let t := generateContentStreamWithRetry (env.nativeAttempts hop) 3
    let effs := [.emit studyNotice] ++ retryEffects t
    match t.result with
    | .error e => (.err e, effs)
    | .ok chunks =>
      (.ret (st.finalText ++ processText chunks) none st.grounding,
       effs ++ processEmits chunks)

/-- The tail of the SIMPLE branch (lines 416-455): consume the stream
(collecting grounding when native or after a fallback), scan the hop's text
for directives, and either continue with the dispatched action or return,
substituting the cached search context when the total text is blank. -/
def simpleAfterStream (ctx : TurnCtx) (st : LoopSt) (chunks : List StreamChunk)
    (collectG : Bool) (preEffs : List Effect) : HopRes × List Effect :=
  let generated := processText chunks
  let ft := st.finalText ++ generated
  let gr := st.grounding ++ (if collectG then processGrounding chunks else [])
  let effs := preEffs ++ processEmits chunks
  match nextDirective generated ctx.turnPrompt st.params with
  | some (a, p, ps) =>
    let st2 : LoopSt := ⟨a, p, ft, gr, st.fallbackCtx, ps⟩
    (.cont st2, effs)
  | none =>
    if jsTrim ft == "" && !(st.fallbackCtx == "") then
      (.ret st.fallbackCtx none gr, effs ++ [.emit st.fallbackCtx])
    else (.ret ft none gr, effs)

/-- The fallback notice of line 402. -/
def fallbackNotice (model : String) : String :=
  "\n*(Model " ++ model ++ " unavailable, switching to Gemini...)*\n"

/-- The SIMPLE / default branch (lines 351-456).  On the aggregator path the
generator assignment of line 397 calls an async generator function, which
returns the generator without running its body, so the assignment cannot throw
and the catch of lines 398-412 never fires: the creation value is literally
.ok (), the fallback arm below is the (dead) source code of that catch, and an
aggregator failure instead surfaces at the for-await of line 418, outside the
try, propagating to the outer boundary. -/
def simpleHop (env : Env) (ctx : TurnCtx) (hop : Nat) (st : LoopSt) :
    HopRes × List Effect :=
  if ctx.isNative then
    let t := generateContentStreamWithRetry (env.nativeAttempts hop) 3
    match t.result with
    | .error e => (.err e, retryEffects t)
    | .ok chunks => simpleAfterStream ctx st chunks true (retryEffects t)
  else
    let creation : Except JsError Unit := .ok ()
    match creation with
    | .error orError =>
      -- lines 398-412: dead code, see above
      if containsSub orError.message "unavailable" || containsSub orError.message "404" then
        let t := generateContentStreamWithRetry (env.nativeAttempts hop) 3
        let preEffs := [Effect.emit (fallbackNotice ctx.model)] ++ retryEffects t
        match t.result with
        | .error e => (.err e, preEffs)
        | .ok chunks => simpleAfterStream ctx st chunks true preEffs
      else (.err orError, [])
    | .ok _ =>
      match env.orStream hop with
      | .error e => (.err e, [])
      | .ok chunks => simpleAfterStream ctx st chunks false []

/-- One iteration of the while loop: the switch of lines 210-457. -/
def hopStep (env : Env) (ctx : TurnCtx) (hop : Nat) (st : LoopSt) :
    HopRes × List Effect :=
  match st.action with
  | .SEARCH | .DEEP_SEARCH => searchHop env hop st
  | .THINK => thinkHop env ctx hop st
  | .IMAGE => imageHop env hop st
  | .CANVAS => canvasHop env st
  | .PROJECT => projectHop env ctx hop st
  | .STUDY => studyHop env ctx hop st
  | .SIMPLE => simpleHop env ctx hop st

/-- MAX_LOOPS (line 205). -/
def MAX_LOOPS : Nat := 6

def typeErr : JsError := ⟨none, "TypeError: Cannot read properties of undefined"⟩

def mkMsg (pid cid text : String) (img : Option String) (g : List GChunk) : Message :=
  ⟨pid, cid, "ai", text, img, g⟩

/-- Every return site builds { project_id: project.id, chat_id: chat.id, ... }:
with project or chat absent the member access itself throws. -/
def mkMsgE (inp : AgentInput) (text : String) (img : Option String)
    (g : List GChunk) : Except JsError (List Message) :=
  match inp.project, inp.chat with
  | some pid, some cid => .ok [mkMsg pid cid text img g]
  | _, _ => .error typeErr

/-- Result of the try block: the loop outcome, the number of hops executed and
the side effects, in order. -/
structure LoopOut where
  result : Except JsError (List Message)
  hops : Nat
  effects : List Effect

/-- The while loop of lines 207-458, by fuel MAX_LOOPS - loopCount: zero fuel
is the fall-through return of line 460 with the accumulated text and payload. -/
def runLoopAux (env : Env) (ctx : TurnCtx) (inp : AgentInput) :
    Nat → Nat → LoopSt → LoopOut
  | 0, _, st => ⟨mkMsgE inp st.finalText none st.grounding, 0, []⟩
  | fuel + 1, hop, st =>
    let step := hopStep env ctx hop st
    match step.1 with
    | .ret t img g => ⟨mkMsgE inp t img g, 1, step.2⟩
    | .err e => ⟨.error e, 1, step.2⟩
    | .cont st2 =>
      let o := runLoopAux env ctx inp fuel (hop + 1) st2
      ⟨o.result, o.hops + 1, step.2 ++ o.effects⟩

def orKeyNotice : String := "\n*(OpenRouter key missing, falling back to Gemini...)*\n"

/-- The try block of runAutonomousAgent (lines 139-460): model/key resolution,
the router call, context gathering, then the loop.  (The YouTube-URL override
of lines 153-179 rewrites the prompt and forces SEARCH before the loop and is
orthogonal to every property below; the router oracle already ranges over all
actions and prompts.) -/
def runAgentBody (env : Env) (inp : AgentInput) : LoopOut :=
  let ctx := turnCtx inp
  let preEffs := if !ctx.isNative && (inp.openRouterKey == none)
    then [Effect.emit orKeyNotice] else []
  match env.route with
  | .error e => ⟨.error e, 0, preEffs⟩
  | .ok act =>
    match env.memory with
    | .error e => ⟨.error e, 0, preEffs⟩
    | .ok _ =>
      let o := runLoopAux env ctx inp MAX_LOOPS 0
        ⟨act, inp.prompt, "", [], "", env.routeParams⟩
      ⟨o.result, o.hops, preEffs ++ o.effects⟩

/-- Line 464: OpenRouter-branded messages pass through verbatim, everything
else goes through getUserFriendlyError. -/
def chooseErrMsg (env : Env) (e : JsError) : String :=
  if containsSub e.message "OpenRouter" then e.message else env.getUserFriendlyError e

/-- runAutonomousAgent: the try block plus the outer catch of lines 462-466.
The catch rebuilds a fresh single message (no accumulated text, no payload);
it dereferences project.id / chat.id itself, so with either absent the
TypeError escapes even the catch. -/
def runAutonomousAgent (env : Env) (inp : AgentInput) : LoopOut :=
  let o := runAgentBody env inp
  match o.result with
  | .ok msgs => ⟨.ok msgs, o.hops, o.effects⟩
  | .error e =>
    match inp.project, inp.chat with
    | some pid, some cid =>
      ⟨.ok [mkMsg pid cid ("An error occurred: " ++ chooseErrMsg env e) none []],
       o.hops, o.effects⟩
    | _, _ => ⟨.error typeErr, o.hops, o.effects⟩

/-- The state after a continue, unchanged otherwise (for stating trace
properties of the loop). -/
def stepState (env : Env) (ctx : TurnCtx) (hop : Nat) (st : LoopSt) : LoopSt :=
  match (hopStep env ctx hop st).1 with
  | .cont s2 => s2
  | _ => st

/-- n-fold iteration of stepState starting at hop index hop. -/
def iterState (env : Env) (ctx : TurnCtx) : Nat → LoopSt → Nat → LoopSt
  | _, st, 0 => st
  | hop, st, n + 1 => iterState env ctx (hop + 1) (stepState env ctx hop st) n

def isCont : HopRes → Bool
  | .cont _ => true
  | _ => false

/-! ### Theorems. -/

/-- C4: if the native streaming call fails with a rate-limit error on attempts
0 and 1 and succeeds on attempt 2, generateContentStreamWithRetry with
retries = 3 returns the successful stream and invokes the retry-notice
callback exactly twice, with backoff delays exactly 3000 ms then 5000 ms
(2^attempt * 2000 + 1000); and any non-rate-limit failure propagates
immediately, with no retry, no delay and no notice. -/
theorem retry_two_quota_failures_then_success {σ : Type}
    (ar : Nat → Except JsError σ) (s : σ) (e0 e1 : JsError)
    (h0 : ar 0 = .error e0) (hq0 : isQuotaError e0 = true)
    (h1 : ar 1 = .error e1) (hq1 : isQuotaError e1 = true)
    (h2 : ar 2 = .ok s) :
    (generateContentStreamWithRetry ar 3).result = .ok s ∧
    (generateContentStreamWithRetry ar 3).delays = [3000, 5000] ∧
    (generateContentStreamWithRetry ar 3).notices =
      ["(Rate limit hit. Retrying in 3s...)", "(Rate limit hit. Retrying in 5s...)"] ∧
    ∀ (ar2 : Nat → Except JsError σ) (e : JsError), ar2 0 = .error e →
      isQuotaError e = false →
      (generateContentStreamWithRetry ar2 3).result = .error e ∧
      (generateContentStreamWithRetry ar2 3).delays = [] ∧
      (generateContentStreamWithRetry ar2 3).notices = [] := by
  refine ⟨?_, ?_, ?_, ?_⟩
  · simp [generateContentStreamWithRetry, retryGo, h0, h1, h2, hq0, hq1]
  · simp [generateContentStreamWithRetry, retryGo, h0, h1, h2, hq0, hq1]
    decide
  · simp [generateContentStreamWithRetry, retryGo, h0, h1, h2, hq0, hq1,
      retryDelay, retryNotice]
    decide
  · intro ar2 e he hq
    refine ⟨?_, ?_, ?_⟩ <;>
      simp [generateContentStreamWithRetry, retryGo, he, hq]

def quotaErr0 : JsError := ⟨some 429, "rate limited (429)"⟩
def quotaErr1 : JsError := ⟨none, "quota exceeded, try later"⟩
def plainErr : JsError := ⟨some 500, "internal error"⟩

def arWitness : Nat → Except JsError Nat := fun n =>
  if n == 0 then .error quotaErr0 else if n == 1 then .error quotaErr1 else .ok 7

theorem retry_two_quota_failures_then_success_witness :
    (generateContentStreamWithRetry arWitness 3).result = .ok 7 ∧
    (generateContentStreamWithRetry arWitness 3).delays = [3000, 5000] :=
  ⟨(retry_two_quota_failures_then_success arWitness 7 quotaErr0 quotaErr1
      rfl rfl rfl rfl rfl).1,
   (retry_two_quota_failures_then_success arWitness 7 quotaErr0 quotaErr1
      rfl rfl rfl rfl rfl).2.1⟩

/-- C5 counterexample: when every attempt fails with a rate-limit error the
call rethrows the final attempt's own error (the quota error itself), not an
error with message "Max retries exceeded"; the post-loop throw of line 128 is
unreachable. -/
def allQuota : Nat → Except JsError Nat := fun _ => .error quotaErr1

theorem retry_exhaustion_not_max_retries_error :
    (generateContentStreamWithRetry allQuota 3).result = .error quotaErr1 ∧
    isQuotaError quotaErr1 = true ∧
    quotaErr1.message ≠ "Max retries exceeded" := by
  refine ⟨rfl, by decide, by decide⟩

/-- Auxiliary: when every attempt from `attempt` through `retries` is a quota
failure, the for loop walks them all and rethrows the last attempt's error. -/
theorem retryGo_all_quota {σ : Type} (ar : Nat → Except JsError σ) (retries : Nat) :
    ∀ fuel attempt, attempt + fuel = retries + 1 → attempt ≤ retries →
    (∀ i, attempt ≤ i → i ≤ retries → ∃ e, ar i = .error e ∧ isQuotaError e = true) →
    (retryGo ar retries attempt fuel).result = ar retries := by
  intro fuel
  induction fuel with
  | zero => intro attempt hsum hle _; omega
  | succ n ih =>
    intro attempt hsum hle H
    obtain ⟨e, he, hq⟩ := H attempt le_rfl hle
    by_cases hlt : attempt < retries
    · have step : (retryGo ar retries attempt (n + 1)).result =
          (retryGo ar retries (attempt + 1) n).result := by
        simp [retryGo, he, hq, hlt]
      rw [step]
      exact ih (attempt + 1) (by omega) (by omega)
        (fun i h1 h2 => H i (by omega) h2)
    · have hat : attempt = retries := by omega
      have hres : (retryGo ar retries attempt (n + 1)).result = .error e := by
        simp [retryGo, he, hq, hlt]
      rw [hres, ← hat]
      exact he.symm

/-- C5 amended: if every attempt of generateContentStreamWithRetry (attempts
0 through retries) fails with a rate-limit error, the call fails by rethrowing
the final attempt's rate-limit error itself; the "Max retries exceeded" throw
after the loop is unreachable. -/
theorem retry_exhaustion_rethrows_last_error {σ : Type}
    (ar : Nat → Except JsError σ) (retries : Nat)
    (H : ∀ i, i ≤ retries → ∃ e, ar i = .error e ∧ isQuotaError e = true) :
    (generateContentStreamWithRetry ar retries).result = ar retries :=
  retryGo_all_quota ar retries (retries + 1) 0 (by omega) (by omega)
    (fun i _ h2 => H i h2)

theorem retry_exhaustion_rethrows_last_error_witness :
    (generateContentStreamWithRetry allQuota 3).result = allQuota 3 :=
  retry_exhaustion_rethrows_last_error allQuota 3
    (fun _ _ => ⟨quotaErr1, rfl, rfl⟩)

/-- C7: an aggregator body consisting of a single `data:` line carrying a
choices[0].delta.content of "Hi", a blank line and a newline-terminated
`data: [DONE]` sentinel yields exactly one delta, the string "Hi"; and a
malformed JSON `data:` fragment earlier in the stream is silently skipped
without aborting the rest of the stream. -/
theorem streamOpenRouter_single_delta :
    streamOpenRouterDeltas
      ["data: \x7b\"choices\":[\x7b\"delta\":\x7b\"content\":\"Hi\"\x7d\x7d]\x7d\n\ndata: [DONE]\n"]
      = [JVal.jstr "Hi"] ∧
    streamOpenRouterDeltas
      ["data: \x7bmalformed\ndata: \x7b\"choices\":[\x7b\"delta\":\x7b\"content\":\"Hi\"\x7d\x7d]\x7d\n\ndata: [DONE]\n"]
      = [JVal.jstr "Hi"] :=
  ⟨rfl, rfl⟩

/-- C6: the directive dispatch checks the tags in the fixed order DEEP,
SEARCH, THINK, IMAGE, PROJECT, CANVAS, STUDY, so with several tags present the
first match in that priority order decides the next hop, the next prompt being
the matched capture (the original turn prompt for a payloadless THINK); on an
output carrying both a SEARCH and a DEEP tag, DEEP wins; and a dispatched
directive drives the next hop of the SIMPLE branch. -/
theorem directive_priority_order :
    (∀ g tp ps c, deepDir g = some c →
      nextDirective g tp ps = some (.DEEP_SEARCH, c, ps)) ∧
    (∀ g tp ps c, deepDir g = none → searchDir g = some c →
      nextDirective g tp ps = some (.SEARCH, c, ps)) ∧
    (∀ g tp ps c, deepDir g = none → searchDir g = none → thinkDir g = some c →
      nextDirective g tp ps =
        some (.THINK, if c == "" then tp else jsTrim c, ps)) ∧
    (∀ g tp ps c, deepDir g = none → searchDir g = none → thinkDir g = none →
      imageDir g = some c → nextDirective g tp ps = some (.IMAGE, c, some c)) ∧
    (∀ g tp ps c, deepDir g = none → searchDir g = none → thinkDir g = none →
      imageDir g = none → projectDir g = some c →
      nextDirective g tp ps = some (.PROJECT, c, ps)) ∧
    (∀ g tp ps c, deepDir g = none → searchDir g = none → thinkDir g = none →
      imageDir g = none → projectDir g = none → canvasDir g = some c →
      nextDirective g tp ps = some (.CANVAS, c, ps)) ∧
    (∀ g tp ps c, deepDir g = none → searchDir g = none → thinkDir g = none →
      imageDir g = none → projectDir g = none → canvasDir g = none →
      studyDir g = some c → nextDirective g tp ps = some (.STUDY, c, ps)) ∧
    (searchDir "a<SEARCH>weather in Paris</SEARCH>b<DEEP>quantum</DEEP>" =
      some "weather in Paris" ∧
     nextDirective "a<SEARCH>weather in Paris</SEARCH>b<DEEP>quantum</DEEP>" "tp" none =
      some (.DEEP_SEARCH, "quantum", none)) ∧
    (∀ env ctx hop st chunks a p ps, st.action = .SIMPLE → ctx.isNative = true →
      env.nativeAttempts hop 0 = .ok chunks →
      nextDirective (processText chunks) ctx.turnPrompt st.params = some (a, p, ps) →
      (hopStep env ctx hop st).1 = .cont
        ⟨a, p, st.finalText ++ processText chunks,
         st.grounding ++ processGrounding chunks, st.fallbackCtx, ps⟩) := by
  refine ⟨?_, ?_, ?_, ?_, ?_, ?_, ?_, ⟨rfl, rfl⟩, ?_⟩
  · intro g tp ps c h; simp [nextDirective, h]
  · intro g tp ps c h1 h2; simp [nextDirective, h1, h2]
  · intro g tp ps c h1 h2 h3; simp [nextDirective, h1, h2, h3]
  · intro g tp ps c h1 h2 h3 h4; simp [nextDirective, h1, h2, h3, h4]
  · intro g tp ps c h1 h2 h3 h4 h5; simp [nextDirective, h1, h2, h3, h4, h5]
  · intro g tp ps c h1 h2 h3 h4 h5 h6; simp [nextDirective, h1, h2, h3, h4, h5, h6]
  · intro g tp ps c h1 h2 h3 h4 h5 h6 h7
    simp [nextDirective, h1, h2, h3, h4, h5, h6, h7]
  · intro env ctx hop st chunks a p ps hA hN hS hD
    simp [hopStep, hA, simpleHop, hN, generateContentStreamWithRetry, retryGo,
      hS, retryEffects, simpleAfterStream, hD]

theorem directive_priority_order_witness :
    nextDirective "<DEEP>x</DEEP>" "tp" none =
      some (RouterAction.DEEP_SEARCH, "x", none) :=
  directive_priority_order.1 "<DEEP>x</DEEP>" "tp" none "x" rfl

/-- C9: a SEARCH tag whose payload starts with the word "deep" and whitespace
(matched case-insensitively) is captured by the second alternative of the deep
match, so even without any DEEP tag the dispatch hops to DEEP_SEARCH with the
"deep" prefix (and the following whitespace) stripped from the prompt;
concretely, output <SEARCH>deep weather in Paris</SEARCH> — on which the plain
SEARCH regex also matches with its full payload — dispatches to DEEP_SEARCH
with prompt "weather in Paris". -/
theorem search_deep_payload_promotes_to_deep_search :
    (∀ g tp ps c, tagCapture "<DEEP>" "</DEEP>" g = none →
      scanDeepSearch g.data = some c.data →
      nextDirective g tp ps = some (.DEEP_SEARCH, c, ps)) ∧
    searchDir "<SEARCH>deep weather in Paris</SEARCH>" =
      some "deep weather in Paris" ∧
    nextDirective "<SEARCH>deep weather in Paris</SEARCH>" "tp" none =
      some (.DEEP_SEARCH, "weather in Paris", none) := by
  refine ⟨?_, rfl, rfl⟩
  intro g tp ps c h1 h2
  have hd : deepDir g = some c := by
    simp [deepDir, h1, h2]
  simp [nextDirective, hd]

theorem search_deep_payload_promotes_to_deep_search_witness :
    nextDirective "<SEARCH>deep now</SEARCH>" "tp" none =
      some (RouterAction.DEEP_SEARCH, "now", none) :=
  search_deep_payload_promotes_to_deep_search.1
    "<SEARCH>deep now</SEARCH>" "tp" none "now" rfl rfl

/-! ### Effect bookkeeping lemmas: only the qualifying THINK branch ever
touches the thinking counter. -/

theorem incThinking_notin_retryEffects {σ : Type} (t : RetryTrace σ) :
    Effect.incThinking ∉ retryEffects t := by
  simp [retryEffects]

theorem incThinking_notin_processEmits (l : List StreamChunk) :
    Effect.incThinking ∉ processEmits l := by
  induction l with
  | nil => simp [processEmits]
  | cons c r ih => by_cases h : c.text == "" <;> simp [processEmits, h, ih]

theorem incThinking_simpleAfterStream (ctx : TurnCtx) (st : LoopSt)
    (chunks : List StreamChunk) (cg : Bool) (pre : List Effect) :
    Effect.incThinking ∈ (simpleAfterStream ctx st chunks cg pre).2 →
    Effect.incThinking ∈ pre := by
  intro h
  simp only [simpleAfterStream] at h
  split at h
  · simp at h
    rcases h with h | h
    · exact h
    · exact absurd h (incThinking_notin_processEmits chunks)
  · split at h <;> simp at h <;> rcases h with h | h
    · exact h
    · exact absurd h (incThinking_notin_processEmits chunks)
    · exact h
    · exact absurd h (incThinking_notin_processEmits chunks)

/-- C8: a THINK hop on a model that is not a native gemini-2.5 generation
continues as SIMPLE with the same prompt and produces no side effect at all —
in particular incrementThinkingCount is not invoked; and across the whole
switch, the thinking counter is touched only by the qualifying THINK branch. -/
theorem think_downgrade_skips_counter :
    (∀ env ctx hop st, st.action = .THINK →
      (isGoogleModel ctx.model && containsSub ctx.model "gemini-2.5") = false →
      hopStep env ctx hop st = (.cont { st with action := .SIMPLE }, [])) ∧
    (∀ env ctx hop st, Effect.incThinking ∈ (hopStep env ctx hop st).2 →
      st.action = .THINK ∧
      (isGoogleModel ctx.model && containsSub ctx.model "gemini-2.5") = true) := by
  constructor
  · intro env ctx hop st hA hq
    simp [hopStep, hA, thinkHop, hq]
  · intro env ctx hop st h
    rcases hA : st.action
    case SIMPLE =>
      exfalso
      simp only [hopStep, hA, simpleHop] at h
      split at h
      · split at h
        · exact absurd h (incThinking_notin_retryEffects _)
        · exact absurd (incThinking_simpleAfterStream _ _ _ _ _ h)
            (incThinking_notin_retryEffects _)
      · split at h
        · exact absurd h (List.not_mem_nil _)
        · exact (List.not_mem_nil _) (incThinking_simpleAfterStream _ _ _ _ _ h)
    case SEARCH =>
      exfalso
      simp only [hopStep, hA, searchHop] at h
      split at h <;> simp at h
    case DEEP_SEARCH =>
      exfalso
      simp only [hopStep, hA, searchHop] at h
      split at h <;> simp at h
    case THINK =>
      refine ⟨rfl, ?_⟩
      by_contra hq
      have hq2 : (isGoogleModel ctx.model && containsSub ctx.model "gemini-2.5") = false := by
        revert hq; cases isGoogleModel ctx.model && containsSub ctx.model "gemini-2.5" <;> simp
      simp [hopStep, hA, thinkHop, hq2] at h
    case IMAGE =>
      exfalso
      simp only [hopStep, hA, imageHop] at h
      split at h <;> simp at h
    case PROJECT =>
      exfalso
      simp only [hopStep, hA, projectHop] at h
      split at h
      · simp at h
      · split at h <;> simp at h
    case CANVAS =>
      exfalso
      simp only [hopStep, hA, canvasHop] at h
      split at h <;> simp at h
    case STUDY =>
      exfalso
      simp only [hopStep, hA, studyHop] at h
      split at h
      · simp at h
      · split at h
        · simp at h
          exact absurd h (incThinking_notin_retryEffects _)
        · simp at h
          rcases h with h | h
          · exact absurd h (incThinking_notin_retryEffects _)
          · exact absurd h (incThinking_notin_processEmits _)

/-- A concrete, fully benign environment for witnesses: the router picks
SEARCH, research succeeds with no sources, and every native stream emits a
SEARCH directive (so SIMPLE hops keep hopping). -/
def envBase : Env where
  route := .ok .SEARCH
  routeParams := none
  memory := .ok ()
  research := fun _ _ => .ok ⟨"ans", []⟩
  nativeAttempts := fun _ _ => .ok [⟨"<SEARCH>go</SEARCH>", []⟩]
  orStream := fun _ => .ok []
  imageGen := fun _ _ => .ok "b64"
  canvasText := .ok "canvas"
  projectGen := fun _ => .ok "proj"
  incThinkingRes := .ok ()
  urlHostname := fun _ => none
  getUserFriendlyError := fun _ => "Something went wrong. Please try again."

def inpBase : AgentInput := ⟨"hi", "gemini-2.5-flash", some "p1", some "c1", none⟩

def ctxNonQualifying : TurnCtx := ⟨"meta-llama/llama-3-8b", false, "turn"⟩
def stThink : LoopSt := ⟨.THINK, "question", "acc", [], "", none⟩

theorem think_downgrade_skips_counter_witness :
    hopStep envBase ctxNonQualifying 0 stThink =
      (.cont { stThink with action := .SIMPLE }, []) :=
  think_downgrade_skips_counter.1 envBase ctxNonQualifying 0 stThink rfl (by decide)

/-! ### Unfolding lemmas for the loop driver. -/

theorem runLoopAux_ret (env : Env) (ctx : TurnCtx) (inp : AgentInput)
    (fuel hop : Nat) (st : LoopSt) (t : String) (img : Option String)
    (g : List GChunk) (h : (hopStep env ctx hop st).1 = .ret t img g) :
    runLoopAux env ctx inp (fuel + 1) hop st =
      ⟨mkMsgE inp t img g, 1, (hopStep env ctx hop st).2⟩ := by
  simp only [runLoopAux]
  rw [h]

theorem runLoopAux_err (env : Env) (ctx : TurnCtx) (inp : AgentInput)
    (fuel hop : Nat) (st : LoopSt) (e : JsError)
    (h : (hopStep env ctx hop st).1 = .err e) :
    runLoopAux env ctx inp (fuel + 1) hop st =
      ⟨.error e, 1, (hopStep env ctx hop st).2⟩ := by
  simp only [runLoopAux]
  rw [h]

theorem runLoopAux_cont (env : Env) (ctx : TurnCtx) (inp : AgentInput)
    (fuel hop : Nat) (st st2 : LoopSt)
    (h : (hopStep env ctx hop st).1 = .cont st2) :
    runLoopAux env ctx inp (fuel + 1) hop st =
      ⟨(runLoopAux env ctx inp fuel (hop + 1) st2).result,
       (runLoopAux env ctx inp fuel (hop + 1) st2).hops + 1,
       (hopStep env ctx hop st).2 ++ (runLoopAux env ctx inp fuel (hop + 1) st2).effects⟩ := by
  simp only [runLoopAux]
  rw [h]

theorem runLoopAux_hops_le (env : Env) (ctx : TurnCtx) (inp : AgentInput) :
    ∀ fuel hop st, (runLoopAux env ctx inp fuel hop st).hops ≤ fuel := by
  intro fuel
  induction fuel with
  | zero => intro hop st; exact Nat.le_refl 0
  | succ n ih =>
    intro hop st
    rcases h : (hopStep env ctx hop st).1 with ⟨t, img, g⟩ | st2 | e
    · rw [runLoopAux_ret env ctx inp n hop st t img g h]
      exact Nat.succ_le_succ (Nat.zero_le n)
    · rw [runLoopAux_cont env ctx inp n hop st st2 h]
      exact Nat.succ_le_succ (ih (hop + 1) st2)
    · rw [runLoopAux_err env ctx inp n hop st e h]
      exact Nat.succ_le_succ (Nat.zero_le n)

theorem runAutonomousAgent_hops_eq (env : Env) (inp : AgentInput) :
    (runAutonomousAgent env inp).hops = (runAgentBody env inp).hops := by
  simp only [runAutonomousAgent]
  rcases h : (runAgentBody env inp).result with e | msgs
  · rcases hp : inp.project with _ | pid <;> rcases hc : inp.chat with _ | cid <;>
      simp [h, hp, hc]
  · simp [h]

theorem runAgentBody_hops_le (env : Env) (inp : AgentInput) :
    (runAgentBody env inp).hops ≤ MAX_LOOPS := by
  simp only [runAgentBody]
  rcases hr : env.route with e | act
  · simp [MAX_LOOPS]
  · rcases hm : env.memory with e2 | u
    · simp [MAX_LOOPS]
    · simpa using runLoopAux_hops_le env (turnCtx inp) inp MAX_LOOPS 0
        ⟨act, inp.prompt, "", [], "", env.routeParams⟩

/-- When the hop at the head of the trace continues, the loop consumed exactly
one more hop than the rest of the trace: the counter advances by one per
iteration. -/
theorem runLoopAux_hops_succ (env : Env) (ctx : TurnCtx) (inp : AgentInput)
    (fuel hop : Nat) (st st2 : LoopSt)
    (h : (hopStep env ctx hop st).1 = .cont st2) :
    (runLoopAux env ctx inp (fuel + 1) hop st).hops =
      (runLoopAux env ctx inp fuel (hop + 1) st2).hops + 1 := by
  rw [runLoopAux_cont env ctx inp fuel hop st st2 h]

/-- If every hop along the trace continues, the loop runs its full fuel and
falls through with the final state's accumulated text and payload. -/
theorem runLoopAux_all_cont (env : Env) (ctx : TurnCtx) (inp : AgentInput) :
    ∀ fuel hop st,
      (∀ i, i < fuel →
        isCont (hopStep env ctx (hop + i) (iterState env ctx hop st i)).1 = true) →
      (runLoopAux env ctx inp fuel hop st).hops = fuel ∧
      (runLoopAux env ctx inp fuel hop st).result =
        mkMsgE inp (iterState env ctx hop st fuel).finalText none
          (iterState env ctx hop st fuel).grounding := by
  intro fuel
  induction fuel with
  | zero => intro hop st _; exact ⟨rfl, rfl⟩
  | succ n ih =>
    intro hop st H
    have h0 : isCont (hopStep env ctx hop st).1 = true := by
      have := H 0 (Nat.succ_pos n)
      simpa [iterState] using this
    rcases hh : (hopStep env ctx hop st).1 with ⟨t, img, g⟩ | st2 | e
    · rw [hh] at h0; simp [isCont] at h0
    · have hst : stepState env ctx hop st = st2 := by simp [stepState, hh]
      have key : ∀ i, i < n →
          isCont (hopStep env ctx ((hop + 1) + i)
            (iterState env ctx (hop + 1) st2 i)).1 = true := by
        intro i hi
        have h2 := H (i + 1) (Nat.succ_lt_succ hi)
        have harith : hop + (i + 1) = (hop + 1) + i := by omega
        rw [show iterState env ctx hop st (i + 1) =
            iterState env ctx (hop + 1) st2 i by
          simp [iterState, hst], harith] at h2
        exact h2
      obtain ⟨ih1, ih2⟩ := ih (hop + 1) st2 key
      have hiter : iterState env ctx hop st (n + 1) =
          iterState env ctx (hop + 1) st2 (n + 1 - 1) := by
        simp [iterState, hst]
      constructor
      · rw [runLoopAux_hops_succ env ctx inp n hop st st2 hh, ih1]
      · rw [runLoopAux_cont env ctx inp n hop st st2 hh]
        simpa [hiter] using ih2
    · rw [hh] at h0; simp [isCont] at h0

/-- C1: the hop loop of runAutonomousAgent executes at most MAX_LOOPS = 6
iterations, the hop counter advancing by exactly one per iteration; and
whenever no branch of the first 6 hops produces a terminal return or throws,
the function returns after hop 6 with the text and grounding payload the
6-step trace accumulated.  No execution performs 7 or more hops. -/
theorem loop_bounded_six_hops (env : Env) (inp : AgentInput) :
    (runAutonomousAgent env inp).hops ≤ MAX_LOOPS ∧
    (∀ fuel hop st st2, (hopStep env (turnCtx inp) hop st).1 = .cont st2 →
      (runLoopAux env (turnCtx inp) inp (fuel + 1) hop st).hops =
        (runLoopAux env (turnCtx inp) inp fuel (hop + 1) st2).hops + 1) ∧
    (∀ act pid cid, env.route = .ok act → env.memory = .ok () →
      inp.project = some pid → inp.chat = some cid →
      (∀ i, i < MAX_LOOPS →
        isCont (hopStep env (turnCtx inp) i
          (iterState env (turnCtx inp) 0
            ⟨act, inp.prompt, "", [], "", env.routeParams⟩ i)).1 = true) →
      (runAutonomousAgent env inp).hops = MAX_LOOPS ∧
      (runAutonomousAgent env inp).result = .ok [mkMsg pid cid
        (iterState env (turnCtx inp) 0
          ⟨act, inp.prompt, "", [], "", env.routeParams⟩ MAX_LOOPS).finalText
        none
        (iterState env (turnCtx inp) 0
          ⟨act, inp.prompt, "", [], "", env.routeParams⟩ MAX_LOOPS).grounding]) := by
  refine ⟨?_, ?_, ?_⟩
  · rw [runAutonomousAgent_hops_eq]
    exact runAgentBody_hops_le env inp
  · intro fuel hop st st2 h
    exact runLoopAux_hops_succ env (turnCtx inp) inp fuel hop st st2 h
  · intro act pid cid hroute hmem hp hc H
    obtain ⟨h1, h2⟩ := runLoopAux_all_cont env (turnCtx inp) inp MAX_LOOPS 0
      ⟨act, inp.prompt, "", [], "", env.routeParams⟩ (by simpa using H)
    have hbody : (runAgentBody env inp).hops = MAX_LOOPS ∧
        (runAgentBody env inp).result =
          mkMsgE inp (iterState env (turnCtx inp) 0
            ⟨act, inp.prompt, "", [], "", env.routeParams⟩ MAX_LOOPS).finalText none
            (iterState env (turnCtx inp) 0
              ⟨act, inp.prompt, "", [], "", env.routeParams⟩ MAX_LOOPS).grounding := by
      simp only [runAgentBody, hroute, hmem]
      exact ⟨h1, h2⟩
    have hmsg : mkMsgE inp (iterState env (turnCtx inp) 0
          ⟨act, inp.prompt, "", [], "", env.routeParams⟩ MAX_LOOPS).finalText none
          (iterState env (turnCtx inp) 0
            ⟨act, inp.prompt, "", [], "", env.routeParams⟩ MAX_LOOPS).grounding =
        .ok [mkMsg pid cid
          (iterState env (turnCtx inp) 0
            ⟨act, inp.prompt, "", [], "", env.routeParams⟩ MAX_LOOPS).finalText
          none
          (iterState env (turnCtx inp) 0
            ⟨act, inp.prompt, "", [], "", env.routeParams⟩ MAX_LOOPS).grounding] := by
      simp [mkMsgE, hp, hc]
    constructor
    · rw [runAutonomousAgent_hops_eq]; exact hbody.1
    · simp only [runAutonomousAgent]
      rw [hbody.2, hmsg]

theorem loop_bounded_six_hops_witness :
    (runAutonomousAgent envBase inpBase).hops = MAX_LOOPS :=
  ((loop_bounded_six_hops envBase inpBase).2.2 .SEARCH "p1" "c1" rfl rfl rfl rfl
    (by intro i hi; simp only [MAX_LOOPS] at hi; interval_cases i <;> rfl)).1

/-- C2: with project and chat present, runAutonomousAgent never propagates an
exception: its result is always a normal return, and any error thrown inside
the turn is caught exactly once at the outer boundary and converted to a
single message with sender "ai" whose text reports the error — an
OpenRouter-branded message verbatim, anything else through the user-friendly
conversion (that is exactly chooseErrMsg). -/
theorem errors_caught_once_at_boundary (env : Env) (inp : AgentInput)
    (pid cid : String) (hp : inp.project = some pid) (hc : inp.chat = some cid) :
    (∃ msgs, (runAutonomousAgent env inp).result = .ok msgs) ∧
    (∀ e, (runAgentBody env inp).result = .error e →
      (runAutonomousAgent env inp).result =
        .ok [mkMsg pid cid ("An error occurred: " ++ chooseErrMsg env e) none []]) := by
  constructor
  · rcases h : (runAgentBody env inp).result with e | msgs
    · refine ⟨[mkMsg pid cid ("An error occurred: " ++ chooseErrMsg env e) none []], ?_⟩
      simp only [runAutonomousAgent]; rw [h]; simp [hp, hc]
    · refine ⟨msgs, ?_⟩
      simp only [runAutonomousAgent]; rw [h]
  · intro e he
    simp only [runAutonomousAgent]; rw [he]; simp [hp, hc]

def routeBoom : JsError := ⟨none, "router exploded"⟩

def envRouteErr : Env := { envBase with route := .error routeBoom }

theorem errors_caught_once_at_boundary_witness :
    (runAutonomousAgent envRouteErr inpBase).result =
      .ok [mkMsg "p1" "c1" ("An error occurred: " ++ chooseErrMsg envRouteErr routeBoom)
        none []] :=
  (errors_caught_once_at_boundary envRouteErr inpBase "p1" "c1" rfl rfl).2 routeBoom rfl

/-- C10: the fatal error path returns a single message whose text is exactly
"An error occurred: " followed by the chosen error message, with no image, an
empty grounding payload and none of the previously accumulated response text —
the message is built fresh in the catch, independent of the loop state. -/
theorem fatal_path_message_exact (env : Env) (inp : AgentInput)
    (pid cid : String) (e : JsError)
    (hp : inp.project = some pid) (hc : inp.chat = some cid)
    (he : (runAgentBody env inp).result = .error e) :
    (runAutonomousAgent env inp).result =
      .ok [⟨pid, cid, "ai", "An error occurred: " ++ chooseErrMsg env e, none, []⟩] := by
  simp only [runAutonomousAgent]; rw [he]; simp [hp, hc, mkMsg]

/-- A native stream failing with a non-quota server error on every attempt of
the first (SIMPLE) hop: the error reaches the outer boundary. -/
def envNativeErr : Env :=
  { envBase with route := .ok .SIMPLE, nativeAttempts := fun _ _ => .error plainErr }

theorem fatal_path_message_exact_witness :
    (runAutonomousAgent envNativeErr inpBase).result =
      .ok [⟨"p1", "c1", "ai", "An error occurred: " ++ chooseErrMsg envNativeErr plainErr,
        none, []⟩] :=
  fatal_path_message_exact envNativeErr inpBase "p1" "c1" plainErr rfl rfl rfl

/-- The 404 "no providers" error streamOpenRouter synthesizes (lines 52-53). -/
def orErr404 : JsError :=
  ⟨some 404, "The model \"meta-llama/llama-3-8b\" is currently unavailable via OpenRouter (No providers). Please select a different model."⟩

def envOr404 : Env :=
  { envBase with route := .ok .SIMPLE, orStream := fun _ => .error orErr404 }

def inpOr : AgentInput := ⟨"hi", "meta-llama/llama-3-8b", some "p1", some "c1", some "orkey"⟩

/-- C3 is false of the code as written (code_bug): on an aggregator SIMPLE hop
failing with the "model unavailable / no providers" 404 condition, no fallback
to gemini-2.5-flash happens.  streamOpenRouter is an async generator, so the
assignment the try of lines 395-413 guards cannot throw; the error surfaces at
the for-await iteration outside that try, propagates to the outer boundary,
and the turn ends on the fatal error path after one hop with no informational
notice ever streamed — even though the message matches the fallback
condition's own "unavailable" test. -/
theorem openrouter_unavailable_no_fallback :
    (runAgentBody envOr404 inpOr).result = .error orErr404 ∧
    (runAutonomousAgent envOr404 inpOr).result =
      .ok [mkMsg "p1" "c1" ("An error occurred: " ++ orErr404.message) none []] ∧
    (runAutonomousAgent envOr404 inpOr).hops = 1 ∧
    (runAutonomousAgent envOr404 inpOr).effects = [] ∧
    containsSub orErr404.message "unavailable" = true ∧
    containsSub orErr404.message "OpenRouter" = true :=
  ⟨rfl, rfl, rfl, rfl, by decide, by decide⟩

end Bubble
